import Mathlib

/-!
# Verification of `arkane/reference.py` (RMG-Py)

A shallow embedding of the reference-species database module used for
isodesmic reaction calculations, together with proofs settling the frozen
claims about it.

Conventions of the embedding:
* Python `dict` objects are modelled as insertion-ordered association lists
  `List (String × _)`; `keys()` / `values()` are the projections, and the
  positional indexing that the Python-2-era source performs on them
  (`sources[0]`, `sources[i]`) is list indexing.
* Python `None` is `Option.none`; Python truthiness of an optional string is
  `none` or the empty string being falsy.
* A Python attribute that may never have been assigned (because a property
  setter silently fell through every branch) is modelled with an outer
  `Option`: `none` means "attribute absent, reading raises AttributeError".
* Exceptions are modelled with `Except`; the error kinds that matter are
  collected in `PyError`.
* Physical floats (`value_si`, `uncertainty_si`, coordinates) are modelled
  as rationals.
* External collaborators (molecular isomorphism, structure parsing) are
  parameters of the functions that use them, matching the spec's black-box
  contracts.
-/

namespace ArkaneReference

/-- The unwrapped content of an rmgpy `ScalarQuantity`-like object: the value
seen by `__reduce__()[1]` is (value, units), and `uncertainty_si` is the
uncertainty converted to SI units. -/
structure ScalarQuantity where
  value : ℚ
  units : String
  uncertainty_si : ℚ
deriving DecidableEq

/-- The part of an rmgpy `ThermoData` object used by this module: its `H298`
quantity. -/
structure ThermoData where
  H298 : ScalarQuantity
deriving DecidableEq

/-- The part of an rmgpy `Conformer` object used by this module: atomic
numbers (`number.value_si`) and coordinates (`coordinates.value_si`, in
meters, SI). -/
structure Conformer where
  number : List ℚ
  coordinates : List (List ℚ)
deriving DecidableEq

/-- Errors raised by the embedded code paths. -/
inductive PyError where
  | valueError (msg : String)
  | keyError (key : String)
  | attributeError (msg : String)
deriving DecidableEq

/-- A value passed to a `thermo_data` property setter, as seen by the Python
type tests: `None`, an actual `ThermoData` instance (truthy), some other
falsy object, or some other truthy object. -/
inductive TDVal where
  | noneV
  | thermo (t : ThermoData)
  | falsyOther
  | truthyOther
deriving DecidableEq

/-- A value passed to the `conformer` property setter of
`CalculatedDataEntry`. -/
inductive ConfVal where
  | noneV
  | conf (c : Conformer)
  | falsyOther
  | truthyOther
deriving DecidableEq

/-- One reference-data record from a single source
(`ReferenceDataEntry` in the source). The `thermo_data` attribute is always
assigned by its setter (falsy input stores `None`), so it is a plain
`Option ThermoData`. -/
structure ReferenceDataEntry where
  thermo_data : Option ThermoData
  atct_id : Option String
deriving DecidableEq

/-- One computed-data record at a single model chemistry
(`CalculatedDataEntry` in the source). Its `thermo_data` setter has no
`else` branch for falsy input, so the `_thermo_data` attribute can end up
never assigned: the outer `Option` is `none` exactly in that
attribute-absent state. -/
structure CalculatedDataEntry where
  conformer : Option Conformer
  thermo_data : Option (Option ThermoData)
  t1_diagnostic : Option ℚ
  fod : Option ℚ
deriving DecidableEq

/-- The `thermo_data` setter of `ReferenceDataEntry`
(reference.py lines 305-313): a truthy `ThermoData` is stored, a truthy
non-`ThermoData` raises `ValueError`, and any falsy value stores `None`. -/
def ReferenceDataEntry.set_thermo_data (value : TDVal) :
    Except PyError (Option ThermoData) :=
  match value with
  | .thermo t => .ok (some t)
  | .truthyOther => .error (.valueError
      "thermo_data for a ReferenceDataEntry object must be an rmgpy ThermoData instance")
  | .noneV => .ok none
  | .falsyOther => .ok none

/-- The `ReferenceDataEntry` constructor (reference.py lines 287-296):
assigns `thermo_data` through the validated setter, then stores `atct_id`. -/
def mkReferenceDataEntry (thermo_data : TDVal) (atct_id : Option String) :
    Except PyError ReferenceDataEntry := do
  let td ← ReferenceDataEntry.set_thermo_data thermo_data
  .ok ⟨td, atct_id⟩

/-- The `conformer` setter of `CalculatedDataEntry`
(reference.py lines 346-354): truthy `Conformer` stored, truthy
non-`Conformer` raises, falsy stores `None`. -/
def CalculatedDataEntry.set_conformer (value : ConfVal) :
    Except PyError (Option Conformer) :=
  match value with
  | .conf c => .ok (some c)
  | .truthyOther => .error (.valueError
      "conformer for a CalculatedDataEntry object must be an rmgpy Conformer instance")
  | .noneV => .ok none
  | .falsyOther => .ok none

/-- The `thermo_data` setter of `CalculatedDataEntry`
(reference.py lines 360-366): truthy `ThermoData` stored, truthy
non-`ThermoData` raises, and a falsy value does NOTHING (there is no `else`
branch), leaving the `_thermo_data` attribute in its prior state. -/
def CalculatedDataEntry.set_thermo_data (value : TDVal)
    (prior : Option (Option ThermoData)) :
    Except PyError (Option (Option ThermoData)) :=
  match value with
  | .thermo t => .ok (some (some t))
  | .truthyOther => .error (.valueError
      "thermo_data for a CalculatedDataEntry object must be an rmgpy ThermoData object")
  | .noneV => .ok prior
  | .falsyOther => .ok prior

/-- The `CalculatedDataEntry` constructor (reference.py lines 321-337):
assigns `conformer` and `thermo_data` through the setters (starting with no
`_thermo_data` attribute), then stores the diagnostics. -/
def mkCalculatedDataEntry (conformer : ConfVal) (thermo_data : TDVal)
    (t1_diagnostic : Option ℚ) (fod : Option ℚ) :
    Except PyError CalculatedDataEntry := do
  let c ← CalculatedDataEntry.set_conformer conformer
  let td ← CalculatedDataEntry.set_thermo_data thermo_data none
  .ok ⟨c, td, t1_diagnostic, fod⟩

/-- Reading the `thermo_data` property of a `CalculatedDataEntry`: if the
attribute was never assigned, Python raises `AttributeError`. -/
def CalculatedDataEntry.get_thermo_data (e : CalculatedDataEntry) :
    Except PyError (Option ThermoData) :=
  match e.thermo_data with
  | none => .error (.attributeError
      "CalculatedDataEntry object has no attribute _thermo_data")
  | some td => .ok td

/-- A key of a Python dict passed to the `reference_data` /
`calculated_data` setters: either a string or something of another type. -/
inductive PyKey where
  | str (s : String)
  | other
deriving DecidableEq

/-- A dict value offered to the `reference_data` setter: either an actual
`ReferenceDataEntry` or something of another type. -/
inductive RDEntryVal where
  | entry (e : ReferenceDataEntry)
  | other
deriving DecidableEq

/-- A dict value offered to the `calculated_data` setter: either an actual
`CalculatedDataEntry` or something of another type. -/
inductive CDEntryVal where
  | entry (e : CalculatedDataEntry)
  | other
deriving DecidableEq

/-- A value assigned to the `reference_data` property: `None`, another falsy
object, a truthy non-dict, or a dict of key/value pairs (an empty dict is
falsy in Python). -/
inductive RDVal where
  | noneV
  | falsyOther
  | truthyOther
  | dict (entries : List (PyKey × RDEntryVal))
deriving DecidableEq

/-- A value assigned to the `calculated_data` property. -/
inductive CDVal where
  | noneV
  | falsyOther
  | truthyOther
  | dict (entries : List (PyKey × CDEntryVal))
deriving DecidableEq

/-- Check `all(isinstance(source, str) ...)` and
`all(isinstance(data_entry, ReferenceDataEntry) ...)` on a dict, extracting
the well-typed association list when both checks pass. -/
def extractRD : List (PyKey × RDEntryVal) →
    Option (List (String × ReferenceDataEntry))
  | [] => some []
  | (.str s, .entry e) :: rest => (extractRD rest).map (fun m => (s, e) :: m)
  | _ :: _ => none

/-- Check the keys and values of a dict offered to `calculated_data`. -/
def extractCD : List (PyKey × CDEntryVal) →
    Option (List (String × CalculatedDataEntry))
  | [] => some []
  | (.str s, .entry e) :: rest => (extractCD rest).map (fun m => (s, e) :: m)
  | _ :: _ => none

/-- The `reference_data` setter (reference.py lines 122-132). `prior` is the
state of the `_reference_data` attribute before the call (`none` =
attribute absent). A falsy value (including an empty dict) stores the empty
mapping; a well-typed non-empty dict is stored; a non-empty dict with a
non-string key or a wrong-kind value falls through BOTH inner `if`s and
does nothing; a truthy non-dict raises `ValueError`. -/
def set_reference_data (value : RDVal)
    (prior : Option (List (String × ReferenceDataEntry))) :
    Except PyError (Option (List (String × ReferenceDataEntry))) :=
  match value with
  | .noneV => .ok (some [])
  | .falsyOther => .ok (some [])
  | .dict [] => .ok (some [])
  | .dict (p :: rest) =>
    match extractRD (p :: rest) with
    | some m => .ok (some m)
    | none => .ok prior
  | .truthyOther => .error (.valueError
      "Reference data must be given as a dictionary of the data source (string) and associated ReferenceDataEntry object")

/-- The `calculated_data` setter (reference.py lines 138-148), with the same
control flow as `set_reference_data`. -/
def set_calculated_data (value : CDVal)
    (prior : Option (List (String × CalculatedDataEntry))) :
    Except PyError (Option (List (String × CalculatedDataEntry))) :=
  match value with
  | .noneV => .ok (some [])
  | .falsyOther => .ok (some [])
  | .dict [] => .ok (some [])
  | .dict (p :: rest) =>
    match extractCD (p :: rest) with
    | some m => .ok (some m)
    | none => .ok prior
  | .truthyOther => .error (.valueError
      "Calculated data must be given as a dictionary of the model chemistry (string) and associated CalculatedDataEntry object")

/-- The part of `ReferenceSpecies.__init__` (reference.py lines 99-100) that
assigns the two mapping fields through their setters, starting from a fresh
object with neither attribute present. Returns the resulting attribute
states; an outer `none` means the attribute was never assigned, so any
later read of that property raises `AttributeError`. -/
def mk_reference_species_data (reference_data : RDVal)
    (calculated_data : CDVal) :
    Except PyError (Option (List (String × ReferenceDataEntry)) ×
      Option (List (String × CalculatedDataEntry))) := do
  let rd ← set_reference_data reference_data none
  let cd ← set_calculated_data calculated_data none
  .ok (rd, cd)

/-- An identity source for a species, recording which external constructor
of the structure/identity service produced it. -/
inductive IdentitySource where
  | direct (n : ℕ)
  | fromSMILES (s : String)
  | fromInChI (s : String)
  | fromAdjacencyList (s : String)
deriving DecidableEq

/-- The external `Species` collaborator, abstracted to its identity. -/
structure Species where
  identity : IdentitySource
deriving DecidableEq

/-- Python truthiness of an optional string: `None` and the empty string
are falsy. -/
def truthyStr : Option String → Bool
  | none => false
  | some s => !(s = "")

/-- The identity-resolution prologue of `ReferenceSpecies.__init__`
(reference.py lines 86-95): if no species object is given, build one from
`smiles`, else `inchi`, else `adjacency_list` (in that priority order), and
raise `ValueError` if all are falsy. The extra keyword arguments `kwargs`
are passed to the parent class and are not consulted here: the `raise`
happens before they are ever used. -/
def resolve_species (species : Option Species)
    (smiles : Option String) (adjacency_list : Option String)
    (inchi : Option String) (kwargs : List (String × String)) :
    Except PyError Species :=
  match species with
  | some sp => .ok sp
  | none =>
    if truthyStr smiles then .ok ⟨.fromSMILES (smiles.getD "")⟩
    else if truthyStr inchi then .ok ⟨.fromInChI (inchi.getD "")⟩
    else if truthyStr adjacency_list then
      .ok ⟨.fromAdjacencyList (adjacency_list.getD "")⟩
    else .error (.valueError
      "Either an rmgpy species object, smiles string, InChI string, or an adjacency list must be given to create a ReferenceSpecies object")

/-- A fully constructed `ReferenceSpecies` in the established state where
both mapping attributes are assigned (the state produced by a construction
whose arguments passed validation, and the state assumed by the query
operations, which read the properties directly). -/
structure ReferenceSpecies where
  smiles : String
  adjacency_list : String
  reference_data : List (String × ReferenceDataEntry)
  calculated_data : List (String × CalculatedDataEntry)
  preferred_reference : Option String
  index : Option Int
  label : Option String
  default_xyz_chemistry : Option String
deriving DecidableEq

/-- First-match association-list lookup, the behaviour of `d[k]` on the
embedded dict (`none` = `KeyError`). -/
def dict_get {α : Type} (d : List (String × α)) (k : String) : Option α :=
  (d.find? (fun p => p.fst == k)).map Prod.snd

/-- The value returned by `get_reference_enthalpy`: the unwrapped H298
quantity (`__reduce__()[1]`, preserving value and units) and the chosen
source name. -/
structure ReferenceEnthalpy where
  h298 : ℚ × String
  source : String
deriving DecidableEq

/-- Read `entry.thermo_data.H298.uncertainty_si` for every entry, as the
selection loop of `get_reference_enthalpy` does; an entry whose
`thermo_data` is `None` raises `AttributeError`. -/
def getUncertainties (data : List ReferenceDataEntry) :
    Except PyError (List ℚ) :=
  data.mapM (fun e =>
    match e.thermo_data with
    | none => .error (.attributeError "NoneType object has no attribute H298")
    | some td => .ok td.H298.uncertainty_si)

/-- The selection loop of `get_reference_enthalpy` (reference.py lines
250-254): walk the (source, uncertainty) pairs in mapping order with a
running preferred source and running minimum uncertainty; an entry replaces
them only when its uncertainty is strictly positive AND strictly below the
running minimum. -/
def select_loop : List (String × ℚ) → String → ℚ → String
  | [], preferred_source, _ => preferred_source
  | (s, u) :: rest, preferred_source, uncertainty =>
    if 0 < u ∧ u < uncertainty then select_loop rest s u
    else select_loop rest preferred_source uncertainty

/-- Source selection of `get_reference_enthalpy` (reference.py lines
239-254): an explicit `source` wins; else `preferred_reference` when it is
not `None`; else the uncertainty loop seeded with the first source and the
FIRST entry's uncertainty (`sources[0]`, `data[0]...uncertainty_si`). -/
def reference_enthalpy_preferred_source (sp : ReferenceSpecies)
    (source : Option String) : Except PyError String :=
  match source with
  | some s => .ok s
  | none =>
    match sp.preferred_reference with
    | some p => .ok p
    | none =>
      match getUncertainties (sp.reference_data.map Prod.snd) with
      | .error e => .error e
      | .ok uncs =>
        .ok (select_loop ((sp.reference_data.map Prod.fst).zip uncs)
              ((sp.reference_data.map Prod.fst).headD "") (uncs.headD 0))

/-- The tail of `get_reference_enthalpy` (reference.py lines 256-259):
`self.reference_data[preferred_source]` (raising `KeyError` when absent),
then unwrap that entry's `thermo_data.H298` (raising `AttributeError` when
`thermo_data` is `None`). -/
def reference_enthalpy_lookup (sp : ReferenceSpecies)
    (preferred_source : String) : Except PyError ReferenceEnthalpy :=
  match dict_get sp.reference_data preferred_source with
  | none => .error (.keyError preferred_source)
  | some entry =>
    match entry.thermo_data with
    | none => .error (.attributeError "NoneType object has no attribute H298")
    | some td => .ok ⟨(td.H298.value, td.H298.units), preferred_source⟩

/-- `ReferenceSpecies.get_reference_enthalpy` (reference.py lines 218-259):
raise `ValueError` when `reference_data` is empty, otherwise select a
source by the priority policy and return its unwrapped H298 with the source
name. -/
def get_reference_enthalpy (sp : ReferenceSpecies)
    (source : Option String) : Except PyError ReferenceEnthalpy :=
  if sp.reference_data.isEmpty then
    .error (.valueError ("No reference data is included for species " ++ sp.smiles))
  else
    match reference_enthalpy_preferred_source sp source with
    | .error e => .error e
    | .ok preferred_source => reference_enthalpy_lookup sp preferred_source

/-- The result of `get_default_xyz`: atomic numbers and coordinates in
angstroms. -/
structure XyzData where
  numbers : List ℚ
  coords : List (List ℚ)
deriving DecidableEq

/-- The `ValueError` message of `get_default_xyz` when no default model
chemistry is configured. -/
def default_xyz_not_set_msg (sp : ReferenceSpecies) : String :=
  "The default model chemistry to use for XYZ coordinates has not been set for " ++ sp.smiles

/-- `ReferenceSpecies.get_default_xyz` (reference.py lines 261-280): when
`default_xyz_chemistry` is truthy, look up that model chemistry's
`CalculatedDataEntry` (KeyError when absent), read its conformer
(`AttributeError` when the conformer is `None`), and return the atomic
numbers together with the SI (meter) coordinates multiplied by
`10.0 ** 10.0`; otherwise raise `ValueError`. -/
def get_default_xyz (sp : ReferenceSpecies) : Except PyError XyzData :=
  match sp.default_xyz_chemistry with
  | none => .error (.valueError (default_xyz_not_set_msg sp))
  | some c =>
    if c = "" then .error (.valueError (default_xyz_not_set_msg sp))
    else
      match dict_get sp.calculated_data c with
      | none => .error (.keyError c)
      | some entry =>
        match entry.conformer with
        | none => .error (.attributeError "NoneType object has no attribute number")
        | some conf =>
          .ok ⟨conf.number,
               conf.coordinates.map (fun row => row.map (fun x => x * (10 : ℚ) ^ (10 : ℕ)))⟩

/-- The `ValueError` message of `get_species_from_index` for a missing
index: it names the missing index and the set that was searched. -/
def index_not_found_msg (index : Int) (set_name : String) : String :=
  "No reference species with index " ++ toString index ++
    " was found in reference set " ++ set_name

/-- The first species of a set whose `index` attribute equals the requested
index (`ref_spcs.index == index`; a species whose index is `None` never
matches an integer). -/
def find_by_index (search_set : List ReferenceSpecies) (index : Int) :
    Option ReferenceSpecies :=
  search_set.find? (fun r => r.index == some index)

/-- The per-index loop of `ReferenceDatabase.get_species_from_index`
(reference.py lines 494-503): linear-scan the set for the first species
with a matching index, appending it to the result; the for-else raises
`ValueError` as soon as one requested index has no match. -/
def get_species_from_index_loop (search_set : List ReferenceSpecies)
    (set_name : String) : List Int → Except PyError (List ReferenceSpecies)
  | [] => .ok []
  | index :: rest =>
    match find_by_index search_set index with
    | some ref_spcs =>
      (get_species_from_index_loop search_set set_name rest).map
        (fun l => ref_spcs :: l)
    | none => .error (.valueError (index_not_found_msg index set_name))

/-- `ReferenceDatabase.get_species_from_index` (reference.py lines 478-505):
fetch the named set from `reference_sets` (KeyError when the set is
missing) and run the per-index loop. The Python`int(index)` coercion is a
no-op here because the requested indices are already integers. -/
def get_species_from_index
    (reference_sets : List (String × List ReferenceSpecies))
    (indices : List Int) (set_name : String) :
    Except PyError (List ReferenceSpecies) :=
  match dict_get reference_sets set_name with
  | none => .error (.keyError set_name)
  | some search_set => get_species_from_index_loop search_set set_name indices

/-- Replacement assignment `d[k] = v` on the embedded dict: overwrite the
existing binding in place, or append a new one. -/
def dict_set {α : Type} (d : List (String × α)) (k : String) (v : α) :
    List (String × α) :=
  if d.any (fun p => p.fst == k) then
    d.map (fun p => if p.fst == k then (k, v) else p)
  else d ++ [(k, v)]

/-- The inner file loop of `ReferenceDatabase.load` (reference.py lines
402-419), parameterised over the external molecule collaborator: for each
deserialized species, build its molecule from the adjacency list, skip it
when its `calculated_data` or `reference_data` is empty (logged, not
raised), skip it when the molecule is isomorphic to one already in the
cumulative `molecule_list` (the for-break-else idiom), and otherwise append
the molecule and the species to the accumulators. -/
def load_set {Mol : Type} (isIsomorphic : Mol → Mol → Bool)
    (fromAdjacencyList : String → Mol) :
    List ReferenceSpecies → List Mol → List ReferenceSpecies →
      List Mol × List ReferenceSpecies
  | [], molecule_list, reference_set => (molecule_list, reference_set)
  | spcs :: rest, molecule_list, reference_set =>
    let molecule := fromAdjacencyList spcs.adjacency_list
    if spcs.calculated_data.length = 0 ∨ spcs.reference_data.length = 0 then
      load_set isIsomorphic fromAdjacencyList rest molecule_list reference_set
    else if molecule_list.any (fun mol => isIsomorphic molecule mol) then
      load_set isIsomorphic fromAdjacencyList rest molecule_list reference_set
    else
      load_set isIsomorphic fromAdjacencyList rest
        (molecule_list ++ [molecule]) (reference_set ++ [spcs])

/-- The path loop of `ReferenceDatabase.load` (reference.py lines 396-421):
thread one `molecule_list` across ALL paths of the call, and assign each
path's accepted sequence into `reference_sets` under the set name. Each
element of `paths` carries the set name (the basename of the path) and the
species deserialized from the files listed in that directory. -/
def load_loop {Mol : Type} (isIsomorphic : Mol → Mol → Bool)
    (fromAdjacencyList : String → Mol) :
    List (String × List ReferenceSpecies) → List Mol →
      List (String × List ReferenceSpecies) →
      List (String × List ReferenceSpecies)
  | [], _, reference_sets => reference_sets
  | (set_name, spcs_files) :: rest, molecule_list, reference_sets =>
    let step := load_set isIsomorphic fromAdjacencyList spcs_files molecule_list []
    load_loop isIsomorphic fromAdjacencyList rest step.fst
      (dict_set reference_sets set_name step.snd)

/-- `ReferenceDatabase.load`: start from the current `reference_sets` with
an empty cumulative molecule list and process every path of the call. -/
def load {Mol : Type} (isIsomorphic : Mol → Mol → Bool)
    (fromAdjacencyList : String → Mol)
    (reference_sets : List (String × List ReferenceSpecies))
    (paths : List (String × List ReferenceSpecies)) :
    List (String × List ReferenceSpecies) :=
  load_loop isIsomorphic fromAdjacencyList paths [] reference_sets

/-- Written from the spec's words for `Load` (one set): "Skip (log and
discard) any entry whose `calculated_data` or `reference_data` is empty.
Otherwise test isomorphism against every structure already accepted in any
set loaded so far in this call; if isomorphic to an existing one, skip (log
and discard) it; otherwise accept it into the current set's ordered
sequence and record its structure for future dedup checks." Returns the
accepted structures and the set's accepted ordered sequence. -/
def load_set_spec {Mol : Type} (isIsomorphic : Mol → Mol → Bool)
    (fromAdjacencyList : String → Mol) (accepted_structures : List Mol) :
    List ReferenceSpecies → List Mol × List ReferenceSpecies
  | [] => (accepted_structures, [])
  | entry :: rest =>
    if entry.calculated_data = [] ∨ entry.reference_data = [] then
      load_set_spec isIsomorphic fromAdjacencyList accepted_structures rest
    else
      let struct := fromAdjacencyList entry.adjacency_list
      if accepted_structures.any (isIsomorphic struct) then
        load_set_spec isIsomorphic fromAdjacencyList accepted_structures rest
      else
        let tail := load_set_spec isIsomorphic fromAdjacencyList
          (accepted_structures ++ [struct]) rest
        (tail.fst, entry :: tail.snd)

/-- Written from the spec's words for `Load` (all paths): the accepted
structures are cumulative across files and across paths in the same call,
and each path's accepted sequence is assigned to `reference_sets` under its
set name, replacing any prior sequence under that name. -/
def load_spec_loop {Mol : Type} (isIsomorphic : Mol → Mol → Bool)
    (fromAdjacencyList : String → Mol) :
    List (String × List ReferenceSpecies) → List Mol →
      List (String × List ReferenceSpecies) →
      List (String × List ReferenceSpecies)
  | [], _, acc => acc
  | (set_name, files) :: rest, structures, acc =>
    let step := load_set_spec isIsomorphic fromAdjacencyList structures files
    load_spec_loop isIsomorphic fromAdjacencyList rest step.fst
      (dict_set acc set_name step.snd)

/-- The spec-worded `Load`, starting with no accepted structures. -/
def load_spec {Mol : Type} (isIsomorphic : Mol → Mol → Bool)
    (fromAdjacencyList : String → Mol)
    (reference_sets : List (String × List ReferenceSpecies))
    (paths : List (String × List ReferenceSpecies)) :
    List (String × List ReferenceSpecies) :=
  load_spec_loop isIsomorphic fromAdjacencyList paths [] reference_sets

/-! ## Concrete sample data used by the evaluation theorems and witnesses -/

/-- A `ThermoData` whose H298 has the given value (in kJ/mol) and SI
uncertainty. -/
def sampleThermo (value : ℚ) (uncertainty : ℚ) : ThermoData :=
  ⟨⟨value, "kJ/mol", uncertainty⟩⟩

/-- A reference-data entry with the given H298 value and uncertainty. -/
def sampleRDEntry (value : ℚ) (uncertainty : ℚ) : ReferenceDataEntry :=
  ⟨some (sampleThermo value uncertainty), none⟩

/-- A species with three reference-data sources whose H298 uncertainties
are 0, 5 and 2 in mapping order, no preferred reference and no explicit
source: the input of the spec's `ResolveReferenceEnthalpy` test property. -/
def unc_zero_species : ReferenceSpecies :=
  ⟨"CC", "adj CC",
   [("src_zero", sampleRDEntry 100 0),
    ("src_five", sampleRDEntry 101 5),
    ("src_two", sampleRDEntry 102 2)],
   [], none, none, none, none⟩

end ArkaneReference

namespace ArkaneReference

/-! ## Claims -/

/-- Claim C1: the claim states that with H298 uncertainties 0, 5, 2 in
mapping order, no explicit source and no preferred reference, the source
with uncertainty 2 (the smallest strictly positive one) is selected. The
code disagrees: the running minimum of the selection loop is initialised to
the FIRST entry's uncertainty (0), and a candidate must be strictly below
the running minimum, so no strictly positive uncertainty can ever win and
the first source (uncertainty 0) is returned. This theorem evaluates
`get_reference_enthalpy` at that failing input. -/
theorem c1_zero_uncertainty_first_source_wins :
    get_reference_enthalpy unc_zero_species none =
        .ok ⟨(100, "kJ/mol"), "src_zero"⟩ ∧
      "src_zero" ≠ "src_two" :=
  ⟨rfl, by decide⟩

/-- Claim C3: the claim states that assigning a mapping with a non-string
key, or with a value of the wrong entry kind, fails with a validation
error. The code disagrees: both inner `if` statements of the setters have
no `else`, so such a mapping is silently ignored — the setter returns
without raising and the backing attribute keeps its prior state (here:
never assigned, `none`). This theorem evaluates both setters at such
inputs. -/
theorem c3_invalid_mapping_silently_ignored :
    set_reference_data (.dict [(.other, .entry ⟨none, none⟩)]) none =
        .ok none ∧
      set_reference_data (.dict [(.str "atct", .other)]) none = .ok none ∧
      set_calculated_data (.dict [(.other, .other)]) none = .ok none :=
  ⟨rfl, rfl, rfl⟩

/-- Claim C4: the claim states that every successfully constructed
`ReferenceSpecies` has both mapping fields present (never the absence
value). The code disagrees: constructing with a `reference_data` dict that
has a non-string key succeeds (the setter silently skips the assignment),
leaving the `_reference_data` attribute absent, so a later read of the
property raises `AttributeError` instead of returning a mapping. This
theorem evaluates the constructor's field assignments at that input: the
result is `.ok` (construction succeeds) with `none` (attribute absent) for
`reference_data`. -/
theorem c4_constructed_species_with_absent_reference_data :
    mk_reference_species_data (.dict [(.other, .entry ⟨none, none⟩)]) .noneV =
      .ok (none, some []) :=
  rfl

/-- Claim C9: constructing a `CalculatedDataEntry` with a falsy
`thermo_data` (such as `None`) leaves the attribute entirely unassigned, so
a subsequent read raises `AttributeError`, while constructing a
`ReferenceDataEntry` with `thermo_data = None` stores `None` and reads back
`None`. -/
theorem c9_thermo_data_none_asymmetry :
    ∀ v : TDVal, v = .noneV ∨ v = .falsyOther →
      (∃ e : CalculatedDataEntry,
        mkCalculatedDataEntry .noneV v none none = .ok e ∧
          e.get_thermo_data = .error (.attributeError
            "CalculatedDataEntry object has no attribute _thermo_data")) ∧
        mkReferenceDataEntry v none = .ok ⟨none, none⟩ := by
  rintro v (rfl | rfl) <;>
    exact ⟨⟨⟨none, none, none, none⟩, rfl, rfl⟩, rfl⟩

/-- Witness for C9 at the concrete falsy value `None`. -/
theorem c9_thermo_data_none_asymmetry_witness :
    (∃ e : CalculatedDataEntry,
      mkCalculatedDataEntry .noneV .noneV none none = .ok e ∧
        e.get_thermo_data = .error (.attributeError
          "CalculatedDataEntry object has no attribute _thermo_data")) ∧
      mkReferenceDataEntry .noneV none = .ok ⟨none, none⟩ :=
  c9_thermo_data_none_asymmetry .noneV (Or.inl rfl)

/-- Helper: when an explicit `source` is passed, `get_reference_enthalpy`
never consults `preferred_reference` (the selection match returns the
explicit source before the preference is ever read). -/
theorem get_reference_enthalpy_ignores_preferred (sp : ReferenceSpecies)
    (p : Option String) (s : String) :
    get_reference_enthalpy { sp with preferred_reference := p } (some s) =
      get_reference_enthalpy sp (some s) := by
  cases sp
  rfl

/-- Helper: resolving with no explicit source while `preferred_reference`
is set behaves exactly like resolving with that preference as the explicit
source. -/
theorem get_reference_enthalpy_uses_preferred (sp : ReferenceSpecies)
    (p : String) (h : sp.preferred_reference = some p) :
    get_reference_enthalpy sp none = get_reference_enthalpy sp (some p) := by
  unfold get_reference_enthalpy reference_enthalpy_preferred_source
  rw [h]

/-- Helper: with an explicit source, `get_reference_enthalpy` reduces to
the emptiness check followed by the direct lookup of that source. -/
theorem get_reference_enthalpy_some (sp : ReferenceSpecies) (s : String) :
    get_reference_enthalpy sp (some s) =
      if sp.reference_data.isEmpty then
        .error (.valueError ("No reference data is included for species " ++ sp.smiles))
      else reference_enthalpy_lookup sp s :=
  rfl

/-- Helper: when `get_reference_enthalpy` succeeds with an explicit source,
the reported source is that explicit source. -/
theorem get_reference_enthalpy_explicit_source (sp : ReferenceSpecies)
    (s : String) (r : ReferenceEnthalpy)
    (h : get_reference_enthalpy sp (some s) = .ok r) : r.source = s := by
  rw [get_reference_enthalpy_some] at h
  split at h
  · exact absurd h (by simp)
  · unfold reference_enthalpy_lookup at h
    split at h
    · exact absurd h (by simp)
    · split at h
      · exact absurd h (by simp)
      · rw [Except.ok.injEq] at h
        rw [← h]

/-- Claim C2: source-selection priority of `get_reference_enthalpy`: an
explicit `source` argument is used and overrides `preferred_reference`
(the result is independent of the preference, and the reported source is
the explicit one); otherwise a set `preferred_reference` is returned
exactly as if it had been passed explicitly, regardless of any uncertainty
values (the uncertainty loop is only reached when neither is given). -/
theorem c2_source_selection_priority :
    ∀ (sp : ReferenceSpecies) (s : String) (p : Option String),
      (get_reference_enthalpy { sp with preferred_reference := p } (some s) =
        get_reference_enthalpy sp (some s)) ∧
      (sp.preferred_reference = some s →
        get_reference_enthalpy sp none = get_reference_enthalpy sp (some s)) ∧
      (∀ r : ReferenceEnthalpy,
        get_reference_enthalpy sp (some s) = .ok r → r.source = s) := by
  intro sp s p
  exact ⟨get_reference_enthalpy_ignores_preferred sp p s,
    get_reference_enthalpy_uses_preferred sp s,
    get_reference_enthalpy_explicit_source sp s⟩

/-- Witness for C2: a species whose preferred reference is `src_five`
resolves to `src_five` when no source is given, and an explicit
`src_two` overrides it whatever the preference is. -/
theorem c2_source_selection_priority_witness :
    (get_reference_enthalpy
        { unc_zero_species with preferred_reference := some "src_zero" }
        (some "src_two") =
      get_reference_enthalpy unc_zero_species (some "src_two")) ∧
    ({ unc_zero_species with preferred_reference := some "src_five" }.preferred_reference = some "src_five" →
      get_reference_enthalpy
          { unc_zero_species with preferred_reference := some "src_five" } none =
        get_reference_enthalpy
          { unc_zero_species with preferred_reference := some "src_five" }
          (some "src_five")) ∧
    (∀ r : ReferenceEnthalpy,
      get_reference_enthalpy
          { unc_zero_species with preferred_reference := some "src_five" }
          (some "src_five") = .ok r → r.source = "src_five") := by
  refine ⟨(c2_source_selection_priority unc_zero_species "src_two" (some "src_zero")).1, ?_, ?_⟩
  · exact (c2_source_selection_priority
      { unc_zero_species with preferred_reference := some "src_five" }
      "src_five" none).2.1
  · exact (c2_source_selection_priority
      { unc_zero_species with preferred_reference := some "src_five" }
      "src_five" none).2.2

/-- Claim C10: with non-empty `reference_data`, an explicit `source` that is
not one of its keys makes `get_reference_enthalpy` raise `KeyError` naming
that source, and neither `preferred_reference` nor the uncertainty policy
is applied (the same `KeyError` results whatever the preference is). -/
theorem c10_explicit_missing_source_key_error :
    ∀ (sp : ReferenceSpecies) (s : String),
      sp.reference_data ≠ [] →
      dict_get sp.reference_data s = none →
      get_reference_enthalpy sp (some s) = .error (.keyError s) ∧
      ∀ p : Option String,
        get_reference_enthalpy { sp with preferred_reference := p } (some s) =
          .error (.keyError s) := by
  intro sp s hne hmiss
  have hmain : get_reference_enthalpy sp (some s) = .error (.keyError s) := by
    rw [get_reference_enthalpy_some,
      if_neg (by simp [List.isEmpty_iff, hne])]
    unfold reference_enthalpy_lookup
    rw [hmiss]
  refine ⟨hmain, fun p => ?_⟩
  rw [get_reference_enthalpy_ignores_preferred sp p s]
  exact hmain

/-- Witness for C10: the missing source `nist` on the three-source sample
species. -/
theorem c10_explicit_missing_source_key_error_witness :
    get_reference_enthalpy unc_zero_species (some "nist") =
        .error (.keyError "nist") ∧
      ∀ p : Option String,
        get_reference_enthalpy { unc_zero_species with preferred_reference := p }
            (some "nist") =
          .error (.keyError "nist") :=
  c10_explicit_missing_source_key_error unc_zero_species "nist"
    (by decide) (by decide)

/-- Claim C7: `get_default_xyz` raises the not-configured `ValueError`
whenever `default_xyz_chemistry` is unset (falsy), and when it names a
model chemistry whose entry stores a conformer, the returned atomic numbers
are the conformer's and the returned coordinates are the conformer's SI
(meter) coordinates multiplied by 10^10 (converted to angstroms). -/
theorem c7_get_default_xyz :
    ∀ sp : ReferenceSpecies,
      ((sp.default_xyz_chemistry = none ∨ sp.default_xyz_chemistry = some "") →
        get_default_xyz sp = .error (.valueError (default_xyz_not_set_msg sp))) ∧
      (∀ (c : String) (entry : CalculatedDataEntry) (conf : Conformer),
        sp.default_xyz_chemistry = some c → c ≠ "" →
        dict_get sp.calculated_data c = some entry →
        entry.conformer = some conf →
        get_default_xyz sp =
          .ok ⟨conf.number,
            conf.coordinates.map (fun row => row.map (fun x => x * (10 : ℚ) ^ (10 : ℕ)))⟩) := by
  intro sp
  constructor
  · rintro (h | h) <;> simp [get_default_xyz, h]
  · intro c entry conf hc hne hlook hconf
    simp [get_default_xyz, hc, hne, hlook, hconf]

/-- A conformer with one atom (carbon) and SI coordinates (1, 2, 3) m. -/
def xyz_conf : Conformer := ⟨[6], [[1, 2, 3]]⟩

/-- A calculated entry storing `xyz_conf`. -/
def xyz_entry : CalculatedDataEntry :=
  ⟨some xyz_conf, some (some (sampleThermo 50 1)), none, none⟩

/-- A species whose default XYZ chemistry points at `xyz_entry`. -/
def xyz_species : ReferenceSpecies :=
  ⟨"C", "adj C", [], [("b3lyp", xyz_entry)], none, none, none, some "b3lyp"⟩

/-- Witness for C7: the unconfigured sample species raises the
configuration error; `xyz_species` returns coordinates scaled by 10^10. -/
theorem c7_get_default_xyz_witness :
    get_default_xyz unc_zero_species =
        .error (.valueError (default_xyz_not_set_msg unc_zero_species)) ∧
      get_default_xyz xyz_species =
        .ok ⟨xyz_conf.number,
          xyz_conf.coordinates.map (fun row => row.map (fun x => x * (10 : ℚ) ^ (10 : ℕ)))⟩ :=
  ⟨(c7_get_default_xyz unc_zero_species).1 (Or.inl rfl),
   (c7_get_default_xyz xyz_species).2 "b3lyp" xyz_entry xyz_conf rfl
     (by decide) rfl rfl⟩

/-- Claim C8: constructing a `ReferenceSpecies` with none of the four
identity sources (species object, SMILES, adjacency list, InChI) fails
with the descriptive `ValueError`, and this does not depend on the extra
keyword arguments (the error is raised before they are consulted; in this
constructor they can never supply an identity source, as all four identity
parameters are named). A single identity source of any of the four kinds
succeeds. -/
theorem c8_identity_source_required :
    ∀ kwargs : List (String × String),
      (resolve_species none none none none kwargs =
        .error (.valueError
          "Either an rmgpy species object, smiles string, InChI string, or an adjacency list must be given to create a ReferenceSpecies object")) ∧
      (∀ s : String, s ≠ "" →
        resolve_species none (some s) none none kwargs = .ok ⟨.fromSMILES s⟩ ∧
        resolve_species none none (some s) none kwargs =
          .ok ⟨.fromAdjacencyList s⟩ ∧
        resolve_species none none none (some s) kwargs = .ok ⟨.fromInChI s⟩) ∧
      (∀ sp : Species,
        resolve_species (some sp) none none none kwargs = .ok sp) := by
  intro kwargs
  refine ⟨rfl, fun s hs => ?_, fun sp => rfl⟩
  refine ⟨?_, ?_, ?_⟩ <;> simp [resolve_species, truthyStr, hs]

/-- Witness for C8 at concrete inputs, including non-trivial extra keyword
data. -/
theorem c8_identity_source_required_witness :
    (resolve_species none none none none [("label", "ethane")] =
      .error (.valueError
        "Either an rmgpy species object, smiles string, InChI string, or an adjacency list must be given to create a ReferenceSpecies object")) ∧
    (resolve_species none (some "CC") none none [] = .ok ⟨.fromSMILES "CC"⟩ ∧
     resolve_species none none (some "CC") none [] =
       .ok ⟨.fromAdjacencyList "CC"⟩ ∧
     resolve_species none none none (some "CC") [] = .ok ⟨.fromInChI "CC"⟩) ∧
    resolve_species (some ⟨.direct 0⟩) none none none [] = .ok ⟨.direct 0⟩ :=
  ⟨(c8_identity_source_required [("label", "ethane")]).1,
   (c8_identity_source_required []).2.1 "CC" (by decide),
   (c8_identity_source_required []).2.2 ⟨.direct 0⟩⟩

/-- Helper: when every requested index has a match, the per-index loop
returns the first matches in request order. -/
theorem get_species_from_index_loop_ok (search_set : List ReferenceSpecies)
    (set_name : String) :
    ∀ indices : List Int,
      (∀ i ∈ indices, (find_by_index search_set i).isSome) →
      get_species_from_index_loop search_set set_name indices =
        .ok (indices.filterMap (find_by_index search_set)) := by
  intro indices
  induction indices with
  | nil => intro _; rfl
  | cons i rest ih =>
    intro h
    obtain ⟨r, hr⟩ :=
      Option.isSome_iff_exists.mp (h i (List.mem_cons_self i rest))
    have hrest := ih (fun j hj => h j (List.mem_cons_of_mem i hj))
    simp only [get_species_from_index_loop, hr, hrest, List.filterMap_cons,
      Except.map]

/-- Helper: the per-index loop raises the not-found `ValueError` for the
first requested index that has no match. -/
theorem get_species_from_index_loop_err (search_set : List ReferenceSpecies)
    (set_name : String) :
    ∀ (indices : List Int) (i₀ : Int),
      indices.find? (fun i => (find_by_index search_set i).isNone) = some i₀ →
      get_species_from_index_loop search_set set_name indices =
        .error (.valueError (index_not_found_msg i₀ set_name)) := by
  intro indices
  induction indices with
  | nil => intro i₀ h; cases h
  | cons i rest ih =>
    intro i₀ h
    by_cases hi : (find_by_index search_set i).isNone = true
    · simp only [List.find?, hi] at h
      injection h with h'
      subst h'
      simp only [get_species_from_index_loop,
        Option.isNone_iff_eq_none.mp hi]
    · have hi' : (find_by_index search_set i).isNone = false := by
        rwa [Bool.not_eq_true] at hi
      simp only [List.find?, hi'] at h
      obtain ⟨r, hr⟩ : ∃ r, find_by_index search_set i = some r := by
        cases hfind : find_by_index search_set i
        · exact absurd (by simp [hfind]) hi
        · exact ⟨_, rfl⟩
      simp only [get_species_from_index_loop, hr, ih i₀ h, Except.map]

/-- Claim C6: `get_species_from_index` returns, for each requested index in
the requested order, the first species of the named set whose `index`
matches; and as soon as one requested index has no match it fails with a
`ValueError` whose message names that missing index and the set name. -/
theorem c6_get_species_from_index :
    ∀ (reference_sets : List (String × List ReferenceSpecies))
      (search_set : List ReferenceSpecies) (indices : List Int)
      (set_name : String),
      dict_get reference_sets set_name = some search_set →
      ((∀ i ∈ indices, (find_by_index search_set i).isSome) →
        get_species_from_index reference_sets indices set_name =
          .ok (indices.filterMap (find_by_index search_set))) ∧
      (∀ i₀ : Int,
        indices.find? (fun i => (find_by_index search_set i).isNone) = some i₀ →
        get_species_from_index reference_sets indices set_name =
          .error (.valueError (index_not_found_msg i₀ set_name))) := by
  intro reference_sets search_set indices set_name hset
  constructor
  · intro h
    simp only [get_species_from_index, hset]
    exact get_species_from_index_loop_ok search_set set_name indices h
  · intro i₀ h
    simp only [get_species_from_index, hset]
    exact get_species_from_index_loop_err search_set set_name indices i₀ h

/-- A bare species carrying only an index, for the C6 witness. -/
def idx_species (n : Int) : ReferenceSpecies :=
  ⟨"C", "adj C", [], [], none, some n, none, none⟩

/-- A database with one set named `main` holding species indexed 1, 2, 3. -/
def main_reference_sets : List (String × List ReferenceSpecies) :=
  [("main", [idx_species 1, idx_species 2, idx_species 3])]

/-- Witness for C6: requesting indices 3 then 1 returns the species in
that order; requesting 99 fails naming 99 and the set. -/
theorem c6_get_species_from_index_witness :
    (get_species_from_index main_reference_sets [3, 1] "main" =
      .ok ([3, 1].filterMap
        (find_by_index [idx_species 1, idx_species 2, idx_species 3]))) ∧
    get_species_from_index main_reference_sets [99] "main" =
      .error (.valueError (index_not_found_msg 99 "main")) :=
  ⟨(c6_get_species_from_index main_reference_sets
      [idx_species 1, idx_species 2, idx_species 3] [3, 1] "main" rfl).1
    (by decide),
   (c6_get_species_from_index main_reference_sets
      [idx_species 1, idx_species 2, idx_species 3] [99] "main" rfl).2 99
    (by decide)⟩

/-- Helper: the imperative file loop of `load` computes, on top of its
accumulators, exactly the spec-worded filter-and-dedup scan. -/
theorem load_set_eq_spec {Mol : Type} (iso : Mol → Mol → Bool)
    (f : String → Mol) :
    ∀ (files : List ReferenceSpecies) (ml : List Mol)
      (rs : List ReferenceSpecies),
      load_set iso f files ml rs =
        ((load_set_spec iso f ml files).fst,
         rs ++ (load_set_spec iso f ml files).snd) := by
  intro files
  induction files with
  | nil => intro ml rs; simp [load_set, load_set_spec]
  | cons spcs rest ih =>
    intro ml rs
    by_cases h1 : spcs.calculated_data = [] ∨ spcs.reference_data = []
    · have h1' : spcs.calculated_data.length = 0 ∨
          spcs.reference_data.length = 0 := by
        simpa [List.length_eq_zero] using h1
      simp only [load_set, load_set_spec, if_pos h1, if_pos h1']
      exact ih ml rs
    · have h1' : ¬(spcs.calculated_data.length = 0 ∨
          spcs.reference_data.length = 0) := by
        simpa [List.length_eq_zero] using h1
      by_cases h2 : ml.any (fun mol => iso (f spcs.adjacency_list) mol) = true
      · simp only [load_set, load_set_spec, if_neg h1, if_neg h1', if_pos h2]
        exact ih ml rs
      · simp only [load_set, load_set_spec, if_neg h1, if_neg h1', if_neg h2]
        rw [ih (ml ++ [f spcs.adjacency_list]) (rs ++ [spcs])]
        simp

/-- Helper: the path loop of `load` agrees with the spec-worded path loop,
threading the cumulative structures across paths. -/
theorem load_loop_eq_spec {Mol : Type} (iso : Mol → Mol → Bool)
    (f : String → Mol) :
    ∀ (paths : List (String × List ReferenceSpecies)) (ml : List Mol)
      (sets : List (String × List ReferenceSpecies)),
      load_loop iso f paths ml sets = load_spec_loop iso f paths ml sets := by
  intro paths
  induction paths with
  | nil => intro ml sets; rfl
  | cons p rest ih =>
    intro ml sets
    obtain ⟨set_name, files⟩ := p
    simp only [load_loop, load_spec_loop, load_set_eq_spec iso f files ml [],
      List.nil_append]
    exact ih _ _

/-- Helper: no entry accepted by the spec-worded scan has empty
`calculated_data` or `reference_data`. -/
theorem load_set_spec_nonempty {Mol : Type} (iso : Mol → Mol → Bool)
    (f : String → Mol) :
    ∀ (files : List ReferenceSpecies) (structs : List Mol),
      ∀ e ∈ (load_set_spec iso f structs files).snd,
        e.calculated_data ≠ [] ∧ e.reference_data ≠ [] := by
  intro files
  induction files with
  | nil => intro structs e h; cases h
  | cons spcs rest ih =>
    intro structs e h
    by_cases h1 : spcs.calculated_data = [] ∨ spcs.reference_data = []
    · simp only [load_set_spec, if_pos h1] at h
      exact ih structs e h
    · by_cases h2 : structs.any (iso (f spcs.adjacency_list)) = true
      · simp only [load_set_spec, if_neg h1, if_pos h2] at h
        exact ih structs e h
      · simp only [load_set_spec, if_neg h1, if_neg h2] at h
        rcases List.mem_cons.mp h with rfl | h'
        · exact not_or.mp h1
        · exact ih (structs ++ [f spcs.adjacency_list]) e h'

/-- Helper: no entry accepted by the spec-worded scan is isomorphic to a
structure that was already recorded before the scan started. -/
theorem load_set_spec_not_iso {Mol : Type} (iso : Mol → Mol → Bool)
    (f : String → Mol) :
    ∀ (files : List ReferenceSpecies) (structs : List Mol),
      ∀ e ∈ (load_set_spec iso f structs files).snd,
        ∀ m ∈ structs, iso (f e.adjacency_list) m = false := by
  intro files
  induction files with
  | nil => intro structs e h; cases h
  | cons spcs rest ih =>
    intro structs e h
    by_cases h1 : spcs.calculated_data = [] ∨ spcs.reference_data = []
    · simp only [load_set_spec, if_pos h1] at h
      exact ih structs e h
    · by_cases h2 : structs.any (iso (f spcs.adjacency_list)) = true
      · simp only [load_set_spec, if_neg h1, if_pos h2] at h
        exact ih structs e h
      · simp only [load_set_spec, if_neg h1, if_neg h2] at h
        rcases List.mem_cons.mp h with rfl | h'
        · intro m hm
          have := List.any_eq_false.mp (Bool.not_eq_true _ ▸ h2) m hm
          exact Bool.not_eq_true _ ▸ (by simpa using this)
        · intro m hm
          exact ih (structs ++ [f spcs.adjacency_list]) e h' m
            (List.mem_append_left _ hm)

/-- Helper: among the entries accepted by the spec-worded scan, no later
entry's structure is isomorphic to an earlier accepted entry's structure
(only the first-encountered representative of each isomorphism class is
retained). -/
theorem load_set_spec_pairwise {Mol : Type} (iso : Mol → Mol → Bool)
    (f : String → Mol) :
    ∀ (files : List ReferenceSpecies) (structs : List Mol),
      ((load_set_spec iso f structs files).snd).Pairwise
        (fun a b => iso (f b.adjacency_list) (f a.adjacency_list) = false) := by
  intro files
  induction files with
  | nil => intro structs; exact List.Pairwise.nil
  | cons spcs rest ih =>
    intro structs
    by_cases h1 : spcs.calculated_data = [] ∨ spcs.reference_data = []
    · simp only [load_set_spec, if_pos h1]
      exact ih structs
    · by_cases h2 : structs.any (iso (f spcs.adjacency_list)) = true
      · simp only [load_set_spec, if_neg h1, if_pos h2]
        exact ih structs
      · simp only [load_set_spec, if_neg h1, if_neg h2]
        refine List.Pairwise.cons ?_ (ih (structs ++ [f spcs.adjacency_list]))
        intro b hb
        exact load_set_spec_not_iso iso f rest
          (structs ++ [f spcs.adjacency_list]) b hb (f spcs.adjacency_list)
          (List.mem_append_right _ (List.mem_singleton.mpr rfl))

/-- Claim C5: `load` implements exactly the spec-worded policy: entries
with empty `calculated_data` or `reference_data` are excluded, an entry
isomorphic to any structure accepted earlier in the same call (cumulative
across files and across paths) is skipped with the first-encountered one
retained, and in all cases entries are discarded without raising (the
functions are total). Stated as the refinement equality together with the
derived guarantees on the per-set file loop: accepted entries have
non-empty data, are not isomorphic to any previously recorded structure,
and are pairwise non-isomorphic (so only the first of two isomorphic files
is retained). -/
theorem c5_load_filters_and_deduplicates :
    ∀ (Mol : Type) (iso : Mol → Mol → Bool) (f : String → Mol),
      (∀ reference_sets paths : List (String × List ReferenceSpecies),
        load iso f reference_sets paths =
          load_spec iso f reference_sets paths) ∧
      (∀ (files : List ReferenceSpecies) (ml : List Mol),
        ∀ e ∈ (load_set iso f files ml []).snd,
          (e.calculated_data ≠ [] ∧ e.reference_data ≠ []) ∧
            ∀ m ∈ ml, iso (f e.adjacency_list) m = false) ∧
      (∀ (files : List ReferenceSpecies) (ml : List Mol),
        ((load_set iso f files ml []).snd).Pairwise
          (fun a b => iso (f b.adjacency_list) (f a.adjacency_list) = false)) := by
  intro Mol iso f
  refine ⟨fun reference_sets paths => load_loop_eq_spec iso f paths [] reference_sets,
    fun files ml e he => ?_, fun files ml => ?_⟩
  · rw [load_set_eq_spec iso f files ml []] at he
    simp only [List.nil_append] at he
    exact ⟨load_set_spec_nonempty iso f files ml e he,
      load_set_spec_not_iso iso f files ml e he⟩
  · rw [load_set_eq_spec iso f files ml []]
    simp only [List.nil_append]
    exact load_set_spec_pairwise iso f files ml

/-- A valid loadable species (non-empty data) whose adjacency list is
`aa`. -/
def dup_sp1 : ReferenceSpecies :=
  ⟨"s1", "aa", [("atct", sampleRDEntry 10 1)],
   [("lot", ⟨none, some (some (sampleThermo 11 1)), none, none⟩)],
   none, some 1, none, none⟩

/-- A valid loadable species whose adjacency list is `bb`: under the toy
isomorphism below (equal string length) it is isomorphic to `dup_sp1`. -/
def dup_sp2 : ReferenceSpecies :=
  ⟨"s2", "bb", [("atct", sampleRDEntry 20 1)],
   [("lot", ⟨none, some (some (sampleThermo 21 1)), none, none⟩)],
   none, some 2, none, none⟩

/-- Witness for C5: with molecules modelled as string lengths and
isomorphism as equality, loading a set holding `dup_sp1` then the
isomorphic `dup_sp2` matches the spec scan, and the accepted `dup_sp1` has
non-empty data and is non-isomorphic to the pre-recorded structure 5. -/
theorem c5_load_filters_and_deduplicates_witness :
    (load (fun a b : ℕ => a == b) String.length []
        [("main", [dup_sp1, dup_sp2])] =
      load_spec (fun a b : ℕ => a == b) String.length []
        [("main", [dup_sp1, dup_sp2])]) ∧
    ((dup_sp1.calculated_data ≠ [] ∧ dup_sp1.reference_data ≠ []) ∧
      ∀ m ∈ [5], (String.length dup_sp1.adjacency_list == m) = false) ∧
    ((load_set (fun a b : ℕ => a == b) String.length [dup_sp1, dup_sp2]
        [] []).snd).Pairwise
      (fun a b =>
        (String.length b.adjacency_list == String.length a.adjacency_list) =
          false) :=
  ⟨(c5_load_filters_and_deduplicates ℕ (fun a b => a == b)
      String.length).1 [] [("main", [dup_sp1, dup_sp2])],
   (c5_load_filters_and_deduplicates ℕ (fun a b => a == b)
      String.length).2.1 [dup_sp1, dup_sp2] [5] dup_sp1 (by decide),
   (c5_load_filters_and_deduplicates ℕ (fun a b => a == b)
      String.length).2.2 [dup_sp1, dup_sp2] []⟩

end ArkaneReference
